import Mathlib

/-
  Verification of sqlectron-db-core against its natural-language specification.

  The development shallowly embeds the parts of the source relevant to the
  claims: the filter builders (src/filters.ts), the select-limit resolution and
  the Database session lifecycle (src/database.ts), the server registry
  (src/server.ts), the per-engine identifier wrapping
  (src/adapters/{mysql,postgresql,sqlite,sqlserver}.ts), and the
  query-cancellation error translation (src/adapters/*.ts, src/utils.ts).
  JavaScript strings become Lean String / List Char, nullable fields become
  Option, thrown errors become Except, and the asynchronous connect() is
  modelled as a small-step machine whose states are the observable await
  boundaries of the event loop.
-/

set_option maxRecDepth 4000

namespace SqlectronDbCore

/-! ### Filters (src/filters.ts) -/

/-- A schema / database filter value as accepted by the filter builders:
either a bare string or a structured record with optional only/ignore lists. -/
inductive FilterSpec
  | str (s : String)
  | structured (only : Option (List String)) (ignore : Option (List String))
deriving DecidableEq

/-- JavaScript truthiness of the destructured filter property: `undefined`
and the empty string are falsy, any object is truthy. -/
def filterFalsy : Option FilterSpec → Bool
  | none => true
  | some (.str s) => s = ""
  | some (.structured _ _) => false

/-- Renders one list element as `'name'`, as in the source's
`only.map((name) => `+`'${name}'`+`)`. -/
def quoteFilterValue (name : String) : String := "'" ++ name ++ "'"

/-- Embeds `buildSchemaFilter` from src/filters.ts: `null` for a falsy filter,
an equality fragment for a bare string, and IN / NOT IN fragments joined with
`' AND '` for the structured form. -/
def buildSchemaFilter (schema : Option FilterSpec) (schemaField : String) :
    Option String :=
  if filterFalsy schema then none
  else
    match schema with
    | none => none
    | some (.str s) => some (schemaField ++ " = '" ++ s ++ "'")
    | some (.structured only ignore) =>
      let w1 : List String :=
        match only with
        | some l =>
          if l.isEmpty then []
          else [schemaField ++ " IN (" ++
                String.intercalate "," (l.map quoteFilterValue) ++ ")"]
        | none => []
      let w2 : List String :=
        match ignore with
        | some l =>
          if l.isEmpty then []
          else [schemaField ++ " NOT IN (" ++
                String.intercalate "," (l.map quoteFilterValue) ++ ")"]
        | none => []
      some (String.intercalate " AND " (w1 ++ w2))

/-- Embeds `buildDatabaseFilter` from src/filters.ts; the body is the same as
`buildSchemaFilter` with the `database` property and field name. -/
def buildDatabaseFilter (database : Option FilterSpec) (databaseField : String) :
    Option String :=
  if filterFalsy database then none
  else
    match database with
    | none => none
    | some (.str s) => some (databaseField ++ " = '" ++ s ++ "'")
    | some (.structured only ignore) =>
      let w1 : List String :=
        match only with
        | some l =>
          if l.isEmpty then []
          else [databaseField ++ " IN (" ++
                String.intercalate "," (l.map quoteFilterValue) ++ ")"]
        | none => []
      let w2 : List String :=
        match ignore with
        | some l =>
          if l.isEmpty then []
          else [databaseField ++ " NOT IN (" ++
                String.intercalate "," (l.map quoteFilterValue) ++ ")"]
        | none => []
      some (String.intercalate " AND " (w1 ++ w2))

/-! ### Select limit (src/database.ts, module scope) -/

/-- The built-in default row limit `DEFAULT_LIMIT` from src/database.ts. -/
def DEFAULT_LIMIT : Int := 1000

/-- The limit resolution inside `Database.getQuerySelectTop`: an explicit
call-site limit wins, else the module-scoped `selectLimit` override, else
`DEFAULT_LIMIT`. -/
def resolveSelectTopLimit (selectLimit : Option Int) (limit : Option Int) : Int :=
  match limit with
  | some l => l
  | none =>
    match selectLimit with
    | some sl => sl
    | none => DEFAULT_LIMIT

/-- Embeds `setSelectLimit` from src/database.ts acting on the module-scoped
`selectLimit` state. -/
def setSelectLimit (limit : Int) (_selectLimit : Option Int) : Option Int :=
  some limit

/-- Embeds `clearSelectLimit` from src/database.ts. -/
def clearSelectLimit (_selectLimit : Option Int) : Option Int :=
  none

/-! ### Server registry (src/server.ts) -/

/-- The registry key computation `dbName || 'undefined'` from
`Server.createConnection` / `Server.removeDatabase`: a missing or empty
(falsy) name falls back to the string `'undefined'`. -/
def dbKey (dbName : Option String) : String :=
  match dbName with
  | none => "undefined"
  | some s => if s = "" then "undefined" else s

/-- A `Database` object identity as stored in `Server.databases`: a fresh id
standing for object identity plus the `database` name it was created with. -/
structure DatabaseHandle where
  id : Nat
  database : Option String
deriving DecidableEq

/-- The `Server` state: the `databases` registry and an allocation counter
standing for "fresh object identity". -/
structure ServerSt where
  databases : List (String × DatabaseHandle)
  nextId : Nat
deriving DecidableEq

/-- Lookup of `this.databases[dbKey]`. -/
def lookupDatabase (dbs : List (String × DatabaseHandle)) (key : String) :
    Option DatabaseHandle :=
  match dbs with
  | [] => none
  | (k, h) :: rest => if k = key then some h else lookupDatabase rest key

/-- Embeds `Server.createConnection` from src/server.ts: return the existing
entry under `dbName || 'undefined'`, else store and return a fresh
`Database`. -/
def createConnection (sv : ServerSt) (dbName : Option String) :
    ServerSt × DatabaseHandle :=
  let key := dbKey dbName
  match lookupDatabase sv.databases key with
  | some h => (sv, h)
  | none =>
    let h : DatabaseHandle := { id := sv.nextId, database := dbName }
    ({ databases := sv.databases ++ [(key, h)], nextId := sv.nextId + 1 }, h)

/-- Embeds `Server.removeDatabase` from src/server.ts: delete the entry under
`dbName || 'undefined'` when present. -/
def removeDatabase (sv : ServerSt) (dbName : Option String) : ServerSt :=
  let key := dbKey dbName
  if (lookupDatabase sv.databases key).isSome then
    { sv with databases := sv.databases.filter (fun p => !(p.1 == key)) }
  else sv

/-! ### Registry lemmas -/

theorem lookupDatabase_append_none {dbs : List (String × DatabaseHandle)}
    {key : String} (h : lookupDatabase dbs key = none) (tail : List (String × DatabaseHandle)) :
    lookupDatabase (dbs ++ tail) key = lookupDatabase tail key := by
  induction dbs with
  | nil => simp
  | cons p rest ih =>
    rw [lookupDatabase] at h
    by_cases hk : p.1 = key
    · rw [show (p = (p.1, p.2)) from rfl] at h
      simp [hk] at h
    · cases p with
      | mk k v =>
        simp only at hk
        simp only [List.cons_append, lookupDatabase, hk, if_false]
        exact ih (by simpa [lookupDatabase, hk] using h)

theorem lookupDatabase_filter_ne (dbs : List (String × DatabaseHandle))
    (key : String) :
    lookupDatabase (dbs.filter (fun p => !(p.1 == key))) key = none := by
  induction dbs with
  | nil => simp [lookupDatabase]
  | cons p rest ih =>
    cases p with
    | mk k v =>
      by_cases hk : k = key
      · simp [List.filter, hk, ih]
      · simp only [List.filter, show ((!(k == key)) = true) by simp [hk]]
        simp [lookupDatabase, hk, ih]

theorem lookupDatabase_removeDatabase (sv : ServerSt) (n : Option String) :
    lookupDatabase (removeDatabase sv n).databases (dbKey n) = none := by
  unfold removeDatabase
  by_cases h : (lookupDatabase sv.databases (dbKey n)).isSome
  · simp only [h, if_true]
    exact lookupDatabase_filter_ne sv.databases (dbKey n)
  · simp only [h, if_false]
    exact Option.not_isSome_iff_eq_none.mp h

/-! ### Database session lifecycle (src/database.ts)

`connect()` is asynchronous; its observable states are the await boundaries
of the event loop (the tunnel await and the `Promise.all` await).  Everything
between two awaits runs atomically.  The model therefore carries, besides the
`connecting` flag and the `connection` reference of the `Database` object, a
phase marking which await (if any) an in-flight `connect()` is suspended at. -/

/-- The `connecting` / `connection` fields of a `Database` object; the
adapter reference is an abstract instance id. -/
structure DbConnSt where
  connecting : Bool
  connection : Option Nat
deriving DecidableEq

/-- Which await boundary an in-flight `connect()` is suspended at:
none (`idle`), the ssh-tunnel await, or the `Promise.all` adapter await. -/
inductive ConnectPhase
  | idle
  | awaitingTunnel
  | awaitingAdapter
deriving DecidableEq

/-- Errors thrown by the `Database` methods: the two precondition `Error`s
thrown by the source, plus the implicit JavaScript `TypeError` raised when a
method is invoked on a `null` adapter with no guard in place. -/
inductive DbError
  | connectionInProgress
  | noConnection
  | nullAdapterTypeError
deriving DecidableEq

/-- The observable state of one `Database` session together with its owning
`Server`. -/
structure SessionSt where
  database : Option String
  db : DbConnSt
  phase : ConnectPhase
  server : ServerSt
  sshConfigured : Bool
  sshTunnel : Bool
deriving DecidableEq

/-- Embeds `Database.disconnect` from src/database.ts: clear the connecting
flag, null the adapter reference when present, remove the session from the
server registry.  The method is synchronous and total. -/
def disconnectSession (s : SessionSt) : SessionSt :=
  let s1 := { s with db := { s.db with connecting := false } }
  let s2 :=
    if s1.db.connection.isSome then
      { s1 with db := { s1.db with connection := none } }
    else s1
  { s2 with server := removeDatabase s2.server s2.database }

/-- The synchronous entry section of `Database.connect`: the re-entrancy
guard, setting `connecting`, the best-effort `void` disconnect of a stale
adapter (which does not reassign `this.connection`), and suspension at the
first await (the tunnel await when ssh is configured and no tunnel exists
yet, the adapter await otherwise). -/
def connectStart (s : SessionSt) : Except DbError SessionSt :=
  if s.db.connecting then .error .connectionInProgress
  else
    let s1 := { s with db := { s.db with connecting := true } }
    if s1.sshConfigured && !s1.sshTunnel then
      .ok { s1 with phase := .awaitingTunnel }
    else
      .ok { s1 with phase := .awaitingAdapter }

/-- The failure path of `Database.connect`: the `catch` block calls
`this.disconnect()` and rethrows, and the `finally` block clears
`connecting`; the operation is over, so the phase returns to idle. -/
def connectFail (s : SessionSt) : SessionSt :=
  let s1 := disconnectSession s
  { s1 with db := { s1.db with connecting := false }, phase := .idle }

/-- Resolution of the ssh-tunnel await inside `connect()`: on success the
tunnel is recorded on the server and execution proceeds to the adapter
await; on failure the catch/finally path runs. -/
def connectResolveTunnel (s : SessionSt) (ok : Bool) : SessionSt :=
  if ok then { s with sshTunnel := true, phase := .awaitingAdapter }
  else connectFail s

/-- Resolution of the `Promise.all([adapter.connect(), handleSSHError()])`
await: on success `this.connection = adapter` and the `finally` clears
`connecting` with no intervening await; on failure the catch/finally path
runs. -/
def connectResolveAdapter (s : SessionSt) (ok : Bool) (adapterId : Nat) :
    SessionSt :=
  if ok then
    { s with db := { connecting := false, connection := some adapterId },
             phase := .idle }
  else connectFail s

/-- One observable transition of a session: starting a `connect()` from an
idle boundary, resolving one of its awaits, or a synchronous
`disconnect()` call (possible at any boundary, also while a `connect()` is
suspended). -/
inductive SessionStep : SessionSt → SessionSt → Prop
  | connectOk (s s' : SessionSt) :
      s.phase = .idle → connectStart s = .ok s' → SessionStep s s'
  | tunnelResolve (s : SessionSt) (ok : Bool) :
      s.phase = .awaitingTunnel → SessionStep s (connectResolveTunnel s ok)
  | adapterResolve (s : SessionSt) (ok : Bool) (a : Nat) :
      s.phase = .awaitingAdapter → SessionStep s (connectResolveAdapter s ok a)
  | disconnectCall (s : SessionSt) : SessionStep s (disconnectSession s)

/-- Reachability along observable transitions. -/
inductive SessionReach (init : SessionSt) : SessionSt → Prop
  | refl : SessionReach init init
  | step {s t : SessionSt} :
      SessionReach init s → SessionStep s t → SessionReach init t

/-- The session state produced by `Server.createConnection` on a fresh
server: not connecting, no adapter, registered under its key. -/
def initSession (database : Option String) (sshConfigured : Bool) : SessionSt :=
  { database := database
    db := { connecting := false, connection := none }
    phase := .idle
    server := { databases := [(dbKey database, { id := 0, database := database })],
                nextId := 1 }
    sshConfigured := sshConfigured
    sshTunnel := false }

/-! ### Delegating operations of Database (src/database.ts)

Each read/write operation is modelled as a function of the
connecting/connection state returning either the thrown error or the call it
performs on the adapter. -/

/-- The adapter call a delegating operation performs when its guard (if any)
passes. -/
inductive AdapterCall
  | getVersion
  | listDatabases (filter : Option FilterSpec)
  | listSchemas (filter : Option FilterSpec)
  | listTables (filter : Option FilterSpec)
  | listViews (filter : Option FilterSpec)
  | listRoutines (filter : Option FilterSpec)
  | listTableColumns (table : String) (schema : Option String)
  | listTableTriggers (table : String) (schema : Option String)
  | listTableIndexes (table : String) (schema : Option String)
  | getTableReferences (table : String) (schema : Option String)
  | getTableKeys (table : String) (schema : Option String)
  | query (queryText : String)
  | executeQuery (queryText : String)
  | getQuerySelectTop (table : String) (limit : Int) (schema : Option String)
  | getTableCreateScript (table : String) (schema : Option String)
  | getViewCreateScript (view : String) (schema : Option String)
  | getRoutineCreateScript (routine : String) (routineType : String)
      (schema : Option String)
  | truncateAllTables (schema : Option String)
deriving DecidableEq

/-- Embeds `Database.checkIsConnected`: throws the no-connection `Error`
when `connecting` is set or no adapter is stored. -/
def checkIsConnected (s : DbConnSt) : Except DbError Unit :=
  if s.connecting || s.connection.isNone then .error .noConnection
  else .ok ()

namespace Database

/-- Embeds `Database.getVersion`. -/
def getVersion (s : DbConnSt) : Except DbError AdapterCall := do
  checkIsConnected s
  pure .getVersion

/-- Embeds `Database.listDatabases`. -/
def listDatabases (s : DbConnSt) (filter : Option FilterSpec) :
    Except DbError AdapterCall := do
  checkIsConnected s
  pure (.listDatabases filter)

/-- Embeds `Database.listSchemas`. -/
def listSchemas (s : DbConnSt) (filter : Option FilterSpec) :
    Except DbError AdapterCall := do
  checkIsConnected s
  pure (.listSchemas filter)

/-- Embeds `Database.listTables`. -/
def listTables (s : DbConnSt) (filter : Option FilterSpec) :
    Except DbError AdapterCall := do
  checkIsConnected s
  pure (.listTables filter)

/-- Embeds `Database.listViews`. -/
def listViews (s : DbConnSt) (filter : Option FilterSpec) :
    Except DbError AdapterCall := do
  checkIsConnected s
  pure (.listViews filter)

/-- Embeds `Database.listRoutines`. -/
def listRoutines (s : DbConnSt) (filter : Option FilterSpec) :
    Except DbError AdapterCall := do
  checkIsConnected s
  pure (.listRoutines filter)

/-- Embeds `Database.listTableColumns`. -/
def listTableColumns (s : DbConnSt) (table : String) (schema : Option String) :
    Except DbError AdapterCall := do
  checkIsConnected s
  pure (.listTableColumns table schema)

/-- Embeds `Database.listTableTriggers`. -/
def listTableTriggers (s : DbConnSt) (table : String) (schema : Option String) :
    Except DbError AdapterCall := do
  checkIsConnected s
  pure (.listTableTriggers table schema)

/-- Embeds `Database.listTableIndexes`. -/
def listTableIndexes (s : DbConnSt) (table : String) (schema : Option String) :
    Except DbError AdapterCall := do
  checkIsConnected s
  pure (.listTableIndexes table schema)

/-- Embeds `Database.getTableReferences`. -/
def getTableReferences (s : DbConnSt) (table : String) (schema : Option String) :
    Except DbError AdapterCall := do
  checkIsConnected s
  pure (.getTableReferences table schema)

/-- Embeds `Database.getTableKeys`. -/
def getTableKeys (s : DbConnSt) (table : String) (schema : Option String) :
    Except DbError AdapterCall := do
  checkIsConnected s
  pure (.getTableKeys table schema)

/-- Embeds `Database.query` (the synchronous handle construction). -/
def query (s : DbConnSt) (queryText : String) : Except DbError AdapterCall := do
  checkIsConnected s
  pure (.query queryText)

/-- Embeds `Database.executeQuery`. -/
def executeQuery (s : DbConnSt) (queryText : String) :
    Except DbError AdapterCall := do
  checkIsConnected s
  pure (.executeQuery queryText)

/-- Embeds `Database.getQuerySelectTop`, including its limit resolution
against the module-scoped `selectLimit`. -/
def getQuerySelectTop (s : DbConnSt) (selectLimit : Option Int)
    (table : String) (schema : Option String) (limit : Option Int) :
    Except DbError AdapterCall := do
  checkIsConnected s
  let limitValue := resolveSelectTopLimit selectLimit limit
  pure (.getQuerySelectTop table limitValue schema)

/-- Embeds `Database.getTableCreateScript`. -/
def getTableCreateScript (s : DbConnSt) (table : String)
    (schema : Option String) : Except DbError AdapterCall := do
  checkIsConnected s
  pure (.getTableCreateScript table schema)

/-- Embeds `Database.getViewCreateScript`. -/
def getViewCreateScript (s : DbConnSt) (view : String)
    (schema : Option String) : Except DbError AdapterCall := do
  checkIsConnected s
  pure (.getViewCreateScript view schema)

/-- Embeds `Database.getRoutineCreateScript`. -/
def getRoutineCreateScript (s : DbConnSt) (routine : String)
    (routineType : String) (schema : Option String) :
    Except DbError AdapterCall := do
  checkIsConnected s
  pure (.getRoutineCreateScript routine routineType schema)

/-- Embeds `Database.truncateAllTables`: the source calls
`(<AbstractAdapter>this.connection).truncateAllTables(schema)` with no
`checkIsConnected` call; on a `null` adapter JavaScript raises a
`TypeError`, and with an adapter present the call goes through regardless of
the `connecting` flag. -/
def truncateAllTables (s : DbConnSt) (schema : Option String) :
    Except DbError AdapterCall :=
  match s.connection with
  | none => .error .nullAdapterTypeError
  | some _ => .ok (.truncateAllTables schema)

end Database

/-! ### Identifier wrapping (src/adapters/ * .ts)

Identifiers are modelled as lists of characters.  Each engine's exported
`wrapIdentifier` is translated from its adapter module; the decoding
direction (how the engine parses a quoted identifier back to a name) is not
part of this repository and is modelled from the spec. -/

/-- The backtick character used by the MySQL quoting code. -/
def backtick : Char := Char.ofNat 96

/-- Doubling of a quote character, as performed by
`value.replace(/q/g, 'qq')` for a one-character pattern `q`. -/
def escapeQuotes (q : Char) : List Char → List Char
  | [] => []
  | c :: cs =>
    if c = q then q :: q :: escapeQuotes q cs else c :: escapeQuotes q cs

/-- Embeds `wrapIdentifier` from src/adapters/mysql.ts:
backtick-quote with backtick doubling, `*` passed through. -/
def wrapIdentifierMysql (value : List Char) : List Char :=
  if value ≠ ['*'] then backtick :: escapeQuotes backtick value ++ [backtick]
  else ['*']

/-- Leftmost match of the regex `(.*?)(\[[0-9]\])` used by the
PostgreSQL/SQLite `wrapIdentifier`: the shortest prefix before an
`[digit]` occurrence together with that three-character occurrence. -/
def matchIdx : List Char → Option (List Char × List Char)
  | a :: b :: c :: rest =>
    if a = '[' ∧ b.isDigit ∧ c = ']' then some ([], [a, b, c])
    else (matchIdx (b :: c :: rest)).map (fun pm => (a :: pm.1, pm.2))
  | _ => none

theorem matchIdx_some_length :
    ∀ (s p m : List Char), matchIdx s = some (p, m) → p.length < s.length := by
  intro s
  induction s with
  | nil =>
    intro p m h
    rw [show matchIdx [] = none from rfl] at h
    exact Option.noConfusion h
  | cons a t ih =>
    intro p m h
    match t with
    | [] =>
      rw [show matchIdx [a] = none from rfl] at h
      exact Option.noConfusion h
    | [b] =>
      rw [show matchIdx [a, b] = none from rfl] at h
      exact Option.noConfusion h
    | b :: c :: rest =>
      rw [matchIdx] at h
      by_cases hcond : a = '[' ∧ b.isDigit ∧ c = ']'
      · simp only [if_pos hcond] at h
        obtain ⟨hp, hm⟩ := Prod.mk.injEq .. ▸ Option.some.injEq .. ▸ h
        subst hp
        simp
      · simp only [if_neg hcond] at h
        cases hmi : matchIdx (b :: c :: rest) with
        | none => rw [hmi] at h; simp at h
        | some pm =>
          rw [hmi] at h
          simp at h
          have hlt := ih pm.1 pm.2 (by rw [hmi])
          rw [← h.1]
          simpa using Nat.succ_lt_succ hlt

/-- Embeds `wrapIdentifier` from src/adapters/postgresql.ts: `*` passes
through, an `[digit]` suffix found by the lazy regex is re-appended after
wrapping the prefix recursively, and otherwise the value is double-quoted
with quote doubling. -/
def wrapIdentifierPg (value : List Char) : List Char :=
  if value = ['*'] then value
  else
    match hm : matchIdx value with
    | some (p, m) => wrapIdentifierPg p ++ m
    | none => '"' :: escapeQuotes '"' value ++ ['"']
termination_by value.length
decreasing_by exact matchIdx_some_length value p m hm

/-- Embeds `wrapIdentifier` from src/adapters/sqlite.ts, whose body is
character-for-character the PostgreSQL one. -/
def wrapIdentifierSqlite (value : List Char) : List Char :=
  wrapIdentifierPg value

/-- The character mapping of `value.replace(/\[/g, '[')` from
src/adapters/sqlserver.ts: each `[` is replaced by `[` again, so the
traversal rewrites nothing. -/
def mssqlEscapeBrackets : List Char → List Char
  | [] => []
  | c :: cs =>
    if c = '[' then '[' :: mssqlEscapeBrackets cs
    else c :: mssqlEscapeBrackets cs

/-- Embeds `wrapIdentifier` from src/adapters/sqlserver.ts: bracket the
value, applying the (vacuous) bracket replacement, `*` passed through. -/
def wrapIdentifierSqlServer (value : List Char) : List Char :=
  if value ≠ ['*'] then '[' :: mssqlEscapeBrackets value ++ [']']
  else ['*']

/-- Modelled from the spec: the engine-side decoding of the characters
between the delimiters of a quoted identifier.  The closing delimiter
character is only valid when doubled, and a doubled occurrence denotes one
literal closing character; the source repository contains no decoder, this
is the inverse reading the spec ascribes to the engines (quote doubling /
`]]` escaping). -/
def unescapeQuotes (q : Char) : List Char → Option (List Char)
  | [] => some []
  | a :: rest =>
    if a = q then
      match rest with
      | [] => none
      | b :: rest2 =>
        if b = q then (unescapeQuotes q rest2).map (fun l => q :: l)
        else none
    else (unescapeQuotes q rest).map (fun l => a :: l)

/-- Modelled from the spec: how an engine reads a whole quoted identifier
back to a name — the opening delimiter, the escaped body, the closing
delimiter; `none` when the characters do not form one well-formed quoted
identifier. -/
def unwrapDelimited (op cl : Char) (s : List Char) : Option (List Char) :=
  match s with
  | a :: rest =>
    if a = op ∧ rest.getLast? = some cl then unescapeQuotes cl rest.dropLast
    else none
  | [] => none

theorem unescapeQuotes_cons_ne (q a : Char) (rest : List Char) (h : ¬ a = q) :
    unescapeQuotes q (a :: rest) =
      (unescapeQuotes q rest).map (fun l => a :: l) := by
  rw [unescapeQuotes.eq_def]
  simp [h]

theorem unescapeQuotes_cons_qq (q : Char) (rest : List Char) :
    unescapeQuotes q (q :: q :: rest) =
      (unescapeQuotes q rest).map (fun l => q :: l) := by
  rw [unescapeQuotes.eq_def]
  simp

theorem unescapeQuotes_escapeQuotes (q : Char) (s : List Char) :
    unescapeQuotes q (escapeQuotes q s) = some s := by
  induction s with
  | nil => simp [escapeQuotes, unescapeQuotes]
  | cons c cs ih =>
    by_cases hc : c = q
    · subst hc
      simp [escapeQuotes, unescapeQuotes_cons_qq, ih]
    · simp [escapeQuotes, hc, unescapeQuotes_cons_ne q c _ hc, ih]

theorem unwrapDelimited_wrap (q : Char) (s : List Char) :
    unwrapDelimited q q (q :: escapeQuotes q s ++ [q]) = some s := by
  simp [unwrapDelimited, List.getLast?_concat, List.dropLast_concat,
        unescapeQuotes_escapeQuotes]

/-! ### Query cancellation (src/adapters/ * .ts, src/utils.ts, src/errors.ts)

The `execute()` promise of a query handle races the driver call against the
cooperative `createCancelablePromise` wait (MySQL, PostgreSQL) or simply
runs the driver call (SQLite, SQL Server).  The model captures, for each
engine, how the settled outcome of that race is translated by the `catch`
blocks; the scheduler's choice is a parameter. -/

/-- A driver-level error: its `code` and the `sqlectronError` discriminator
property (absent on raw driver errors). -/
structure DriverError where
  code : String
  sqlectronError : Option String
deriving DecidableEq

/-- The `CanceledByUserError` of src/errors.ts: `code` and `sqlectronError`
are both the `CANCELED_BY_USER` discriminator. -/
def canceledByUserError : DriverError :=
  { code := "CANCELED_BY_USER", sqlectronError := some "CANCELED_BY_USER" }

/-- How the `Promise.race([cancelable.wait(), executeQuery(...)])` settles:
the driver call resolves first, the driver call rejects first, or the
cooperative wait throws its `CanceledByUserError` first. -/
inductive RaceResult
  | completed
  | driverError (e : DriverError)
  | waitCanceled
deriving DecidableEq

/-- How a driver call with no cooperative race settles (SQLite,
SQL Server). -/
inductive QueryEnd
  | completed
  | driverError (e : DriverError)
deriving DecidableEq

/-- What `execute()` settles to. -/
inductive ExecOutcome
  | resolved
  | rejected (e : DriverError)
deriving DecidableEq

/-- Embeds the `catch` translation of `MysqlAdapter.query().execute()`
(src/adapters/mysql.ts): a driver rejection whose code is
`PROTOCOL_CONNECTION_LOST` while `canceling` is set is re-tagged with the
`CANCELED_BY_USER` discriminator; everything else propagates unchanged. -/
def mysqlExecuteOutcome (canceling : Bool) (r : RaceResult) : ExecOutcome :=
  match r with
  | .completed => .resolved
  | .waitCanceled => .rejected canceledByUserError
  | .driverError e =>
    if canceling ∧ e.code = "PROTOCOL_CONNECTION_LOST" then
      .rejected { e with sqlectronError := some "CANCELED_BY_USER" }
    else .rejected e

/-- Embeds the `catch` translation of `PostgresqlAdapter.query().execute()`
(src/adapters/postgresql.ts), with the PostgreSQL cancellation code
`57014`. -/
def pgExecuteOutcome (canceling : Bool) (r : RaceResult) : ExecOutcome :=
  match r with
  | .completed => .resolved
  | .waitCanceled => .rejected canceledByUserError
  | .driverError e =>
    if canceling ∧ e.code = "57014" then
      .rejected { e with sqlectronError := some "CANCELED_BY_USER" }
    else .rejected e

/-- Embeds the `catch` translation of `SqliteAdapter.query().execute()`
(src/adapters/sqlite.ts): any `SQLITE_INTERRUPT` rejection is re-tagged
(no `canceling` flag, no cooperative race). -/
def sqliteExecuteOutcome (r : QueryEnd) : ExecOutcome :=
  match r with
  | .completed => .resolved
  | .driverError e =>
    if e.code = "SQLITE_INTERRUPT" then
      .rejected { e with sqlectronError := some "CANCELED_BY_USER" }
    else .rejected e

/-- Embeds the `catch` translation of `SqlServerAdapter.query().execute()`
(src/adapters/sqlserver.ts): any `ECANCEL` rejection is re-tagged. -/
def sqlserverExecuteOutcome (r : QueryEnd) : ExecOutcome :=
  match r with
  | .completed => .resolved
  | .driverError e =>
    if e.code = "ECANCEL" then
      .rejected { e with sqlectronError := some "CANCELED_BY_USER" }
    else .rejected e

/-- Embeds the `cancel()` member of the MySQL/PostgreSQL query handles:
with no recorded pid it throws `Query not ready to be canceled`; with the
engine-native kill succeeding the `canceling` flag stays set; a failed kill
resets the flag and rethrows.  The returned Bool is the `canceling` flag
after the call. -/
inductive CancelResult
  | notReady
  | killFailed
  | canceled
deriving DecidableEq

/-- Outcome of `cancel()` together with the resulting `canceling` flag. -/
def cancelStep (pid : Option Nat) (killOk : Bool) : CancelResult × Bool :=
  match pid with
  | none => (.notReady, false)
  | some _ => if killOk then (.canceled, true) else (.killFailed, false)

/-- Modelled from the spec: after `cancel()` has issued a successful
engine-native kill, the racing `execute()` cannot complete normally; it
either observes the cooperative cancellation or fails with the engine's
canonical cancellation error code.  The drivers themselves are external to
the repository. -/
def canceledRaceContract (killCode : String) : RaceResult → Prop
  | .completed => False
  | .driverError e => e.code = killCode
  | .waitCanceled => True

/-- Modelled from the spec: the same driver contract for the engines without
a cooperative race (SQLite, SQL Server). -/
def canceledQueryContract (killCode : String) : QueryEnd → Prop
  | .completed => False
  | .driverError e => e.code = killCode

/-! ### Helper lemmas -/

theorem createConnection_existing (sv : ServerSt) (n : Option String)
    (h : DatabaseHandle) (hl : lookupDatabase sv.databases (dbKey n) = some h) :
    createConnection sv n = (sv, h) := by
  unfold createConnection
  simp [hl]

theorem lookupDatabase_createConnection (sv : ServerSt) (n : Option String) :
    lookupDatabase (createConnection sv n).1.databases (dbKey n) =
      some (createConnection sv n).2 := by
  unfold createConnection
  cases h : lookupDatabase sv.databases (dbKey n) with
  | some hh => simp [h]
  | none => simp [h, lookupDatabase_append_none h, lookupDatabase]

theorem removeDatabase_absent (sv : ServerSt) (n : Option String)
    (h : lookupDatabase sv.databases (dbKey n) = none) :
    removeDatabase sv n = sv := by
  unfold removeDatabase
  simp [h]

theorem removeDatabase_idem (sv : ServerSt) (n : Option String) :
    removeDatabase (removeDatabase sv n) n = removeDatabase sv n :=
  removeDatabase_absent _ _ (lookupDatabase_removeDatabase sv n)

theorem removeDatabase_key_congr (sv : ServerSt) (a b : Option String)
    (h : dbKey a = dbKey b) : removeDatabase sv a = removeDatabase sv b := by
  unfold removeDatabase
  rw [h]

theorem disconnectSession_eq (s : SessionSt) :
    disconnectSession s =
      { s with db := { connecting := false, connection := none },
               server := removeDatabase s.server s.database } := by
  unfold disconnectSession
  by_cases h : s.db.connection.isSome
  · simp [h]
  · simp [h, Option.not_isSome_iff_eq_none.mp h]

theorem connectFail_eq (s : SessionSt) :
    connectFail s =
      { s with db := { connecting := false, connection := none },
               server := removeDatabase s.server s.database,
               phase := .idle } := by
  unfold connectFail
  rw [disconnectSession_eq]

theorem checkIsConnected_fails (s : DbConnSt)
    (h : s.connecting = true ∨ s.connection = none) :
    checkIsConnected s = .error .noConnection := by
  unfold checkIsConnected
  rcases h with h | h <;> simp [h]

theorem escapeQuotes_length_ge (q : Char) (s : List Char) :
    s.length ≤ (escapeQuotes q s).length := by
  induction s with
  | nil => simp [escapeQuotes]
  | cons c cs ih =>
    by_cases hc : c = q <;> simp [escapeQuotes, hc] <;> omega

theorem unescapeQuotes_not_mem (q : Char) (s : List Char) (h : q ∉ s) :
    unescapeQuotes q s = some s := by
  induction s with
  | nil => simp [unescapeQuotes]
  | cons a rest ih =>
    have ha : ¬ a = q := fun hq => h (hq ▸ List.mem_cons_self a rest)
    rw [unescapeQuotes_cons_ne q a rest ha,
        ih (fun hm => h (List.mem_cons_of_mem a hm))]
    rfl

theorem mssqlEscapeBrackets_id (s : List Char) : mssqlEscapeBrackets s = s := by
  induction s with
  | nil => rfl
  | cons c cs ih =>
    by_cases hc : c = '[' <;> simp [mssqlEscapeBrackets, hc, ih]

theorem wrapIdentifierPg_plain (s : List Char) (h1 : ¬ s = ['*'])
    (h2 : matchIdx s = none) :
    wrapIdentifierPg s = '"' :: escapeQuotes '"' s ++ ['"'] := by
  rw [wrapIdentifierPg.eq_def]
  simp only [h1, if_false]
  split
  · rename_i p m hm
    rw [h2] at hm
    exact Option.noConfusion hm
  · rfl

theorem wrapIdentifierMysql_ne_star (s : List Char) (h : ¬ s = ['*']) :
    ¬ wrapIdentifierMysql s = ['*'] := by
  unfold wrapIdentifierMysql
  simp only [ne_eq, h, not_false_iff, if_true]
  intro hc
  have h1 : backtick = '*' ∧ escapeQuotes backtick s ++ [backtick] = [] :=
    List.cons.injEq .. ▸ hc
  simpa using h1.2

theorem wrapIdentifierMysql_ne_self (s : List Char) (h : ¬ s = ['*']) :
    ¬ wrapIdentifierMysql s = s := by
  unfold wrapIdentifierMysql
  simp only [ne_eq, h, not_false_iff, if_true]
  intro hc
  have hlen := congrArg List.length hc
  have hge := escapeQuotes_length_ge backtick s
  simp only [List.length_cons, List.length_append, List.length_singleton] at hlen
  omega

/-! ### Claim theorems -/

/-- C7: `getQuerySelectTop` resolves its row limit with the precedence
explicit call-site limit, then the process-wide `setSelectLimit` override
(125 after `setSelectLimit(125)`), then the built-in default 1000, with
`clearSelectLimit` restoring the default; stated on the limit resolution of
`Database.getQuerySelectTop` and the module-scoped override state, and on
the full guarded operation for a connected session. -/
theorem getQuerySelectTop_limit_precedence :
    (∀ (st : Option Int) (l : Int), resolveSelectTopLimit st (some l) = l) ∧
    (∀ (st : Option Int) (l lim : Int),
        resolveSelectTopLimit (setSelectLimit l st) (some lim) = lim) ∧
    (∀ st : Option Int, resolveSelectTopLimit (setSelectLimit 125 st) none = 125) ∧
    (∀ (st : Option Int) (l : Int),
        resolveSelectTopLimit (setSelectLimit l st) none = l) ∧
    (resolveSelectTopLimit none none = 1000) ∧
    (∀ st : Option Int, resolveSelectTopLimit (clearSelectLimit st) none = 1000) ∧
    (∀ (st lim : Option Int) (t : String) (sch : Option String) (a : Nat),
        Database.getQuerySelectTop { connecting := false, connection := some a }
            st t sch lim =
          .ok (.getQuerySelectTop t (resolveSelectTopLimit st lim) sch)) :=
  ⟨fun _ _ => rfl, fun _ _ _ => rfl, fun _ => rfl, fun _ _ => rfl, rfl,
   fun _ => rfl, fun _ _ _ _ _ => rfl⟩

/-- C8 counterexample: for the bare string input `""` (a falsy JavaScript
value) `buildSchemaFilter` returns `null`, not the equality fragment
`schema_name = ''` the claim promises for every bare string. -/
theorem buildSchemaFilter_empty_string_counterexample :
    buildSchemaFilter (some (.str "")) "schema_name" = none ∧
    ¬ buildSchemaFilter (some (.str "")) "schema_name" =
        some "schema_name = ''" := by
  refine ⟨rfl, ?_⟩
  intro h
  rw [show buildSchemaFilter (some (.str "")) "schema_name" = none from rfl] at h
  exact Option.noConfusion h

/-- C8 (amended): `buildSchemaFilter` and `buildDatabaseFilter` return null
when no filter is given, the fragment `field = 'x'` for a bare non-empty
string `x` (the empty string is falsy and treated as no filter, giving
null), a `field IN (...)` fragment for a non-empty `only` list, a
`field NOT IN (...)` fragment for a non-empty `ignore` list, and both
fragments joined by `' AND '` when both lists are non-empty, each value
rendered in single quotes and comma-separated. -/
theorem buildFilter_shapes :
    (∀ f : String, buildSchemaFilter none f = none) ∧
    (buildSchemaFilter (some (.str "")) "schema_name" = none) ∧
    (∀ (f s : String), ¬ s = "" →
        buildSchemaFilter (some (.str s)) f = some (f ++ " = '" ++ s ++ "'")) ∧
    (∀ (f : String) (l : List String), ¬ l = [] →
        buildSchemaFilter (some (.structured (some l) none)) f =
          some (f ++ " IN (" ++
            String.intercalate "," (l.map quoteFilterValue) ++ ")")) ∧
    (∀ (f : String) (l : List String), ¬ l = [] →
        buildSchemaFilter (some (.structured none (some l))) f =
          some (f ++ " NOT IN (" ++
            String.intercalate "," (l.map quoteFilterValue) ++ ")")) ∧
    (∀ (f : String) (l1 l2 : List String), ¬ l1 = [] → ¬ l2 = [] →
        buildSchemaFilter (some (.structured (some l1) (some l2))) f =
          some ((f ++ " IN (" ++
              String.intercalate "," (l1.map quoteFilterValue) ++ ")") ++
            " AND " ++
            (f ++ " NOT IN (" ++
              String.intercalate "," (l2.map quoteFilterValue) ++ ")"))) ∧
    (∀ f : String, buildDatabaseFilter none f = none) ∧
    (∀ (f s : String), ¬ s = "" →
        buildDatabaseFilter (some (.str s)) f = some (f ++ " = '" ++ s ++ "'")) ∧
    (∀ (f : String) (l : List String), ¬ l = [] →
        buildDatabaseFilter (some (.structured (some l) none)) f =
          some (f ++ " IN (" ++
            String.intercalate "," (l.map quoteFilterValue) ++ ")")) ∧
    (∀ (f : String) (l : List String), ¬ l = [] →
        buildDatabaseFilter (some (.structured none (some l))) f =
          some (f ++ " NOT IN (" ++
            String.intercalate "," (l.map quoteFilterValue) ++ ")")) ∧
    (∀ (f : String) (l1 l2 : List String), ¬ l1 = [] → ¬ l2 = [] →
        buildDatabaseFilter (some (.structured (some l1) (some l2))) f =
          some ((f ++ " IN (" ++
              String.intercalate "," (l1.map quoteFilterValue) ++ ")") ++
            " AND " ++
            (f ++ " NOT IN (" ++
              String.intercalate "," (l2.map quoteFilterValue) ++ ")"))) := by
  refine ⟨fun f => rfl, rfl, ?_, ?_, ?_, ?_, fun f => rfl, ?_, ?_, ?_, ?_⟩
  · intro f s hs
    simp [buildSchemaFilter, filterFalsy, hs]
  · intro f l hl
    simp [buildSchemaFilter, filterFalsy, List.isEmpty_iff, hl,
          String.intercalate, String.intercalate.go]
  · intro f l hl
    simp [buildSchemaFilter, filterFalsy, List.isEmpty_iff, hl,
          String.intercalate, String.intercalate.go]
  · intro f l1 l2 h1 h2
    simp [buildSchemaFilter, filterFalsy, List.isEmpty_iff, h1, h2,
          String.intercalate, String.intercalate.go]
  · intro f s hs
    simp [buildDatabaseFilter, filterFalsy, hs]
  · intro f l hl
    simp [buildDatabaseFilter, filterFalsy, List.isEmpty_iff, hl,
          String.intercalate, String.intercalate.go]
  · intro f l hl
    simp [buildDatabaseFilter, filterFalsy, List.isEmpty_iff, hl,
          String.intercalate, String.intercalate.go]
  · intro f l1 l2 h1 h2
    simp [buildDatabaseFilter, filterFalsy, List.isEmpty_iff, h1, h2,
          String.intercalate, String.intercalate.go]

/-- C8 witness: the amended shapes evaluated at concrete inputs. -/
theorem buildFilter_shapes_witness :
    buildSchemaFilter (some (.str "public")) "schema_name" =
      some "schema_name = 'public'" ∧
    buildSchemaFilter (some (.structured (some ["a", "b"]) (some ["c"])))
        "schema_name" =
      some "schema_name IN ('a','b') AND schema_name NOT IN ('c')" := by
  constructor
  · exact (buildFilter_shapes.2.2.1 "schema_name" "public" (by decide)).trans rfl
  · exact (buildFilter_shapes.2.2.2.2.2.1 "schema_name" ["a", "b"] ["c"]
      (by decide) (by decide)).trans rfl

/-- C10: `createConnection` with no argument, the empty string, or the
literal string `undefined` resolves to the registry key `undefined`; a
second call with any of these arguments returns the very same stored
handle, and `removeDatabase` with any of them performs the same removal. -/
theorem createConnection_undefined_aliases :
    (dbKey none = "undefined" ∧ dbKey (some "") = "undefined" ∧
     dbKey (some "undefined") = "undefined") ∧
    (∀ (sv : ServerSt) (a b : Option String),
        a ∈ [none, some "", some "undefined"] →
        b ∈ [none, some "", some "undefined"] →
        (createConnection (createConnection sv a).1 b).2 =
          (createConnection sv a).2 ∧
        removeDatabase sv a = removeDatabase sv b) := by
  have hkey : ∀ a : Option String,
      a ∈ [none, some "", some "undefined"] → dbKey a = "undefined" := by
    intro a ha
    simp only [List.mem_cons, List.mem_singleton] at ha
    rcases ha with rfl | rfl | rfl | h
    · rfl
    · rfl
    · rfl
    · simp at h
  refine ⟨⟨rfl, rfl, rfl⟩, ?_⟩
  intro sv a b ha hb
  have hka := hkey a ha
  have hkb := hkey b hb
  constructor
  · have hl : lookupDatabase (createConnection sv a).1.databases (dbKey b) =
        some (createConnection sv a).2 := by
      rw [hkb, ← hka]
      exact lookupDatabase_createConnection sv a
    rw [createConnection_existing _ b _ hl]
  · exact removeDatabase_key_congr sv a b (hka.trans hkb.symm)

/-- C10 witness: the alias behaviour at a concrete empty server state. -/
theorem createConnection_undefined_aliases_witness :
    (createConnection
        (createConnection { databases := [], nextId := 0 } none).1 (some "")).2 =
      (createConnection { databases := [], nextId := 0 } none).2 ∧
    removeDatabase { databases := [], nextId := 0 } none =
      removeDatabase { databases := [], nextId := 0 } (some "") :=
  createConnection_undefined_aliases.2 { databases := [], nextId := 0 }
    none (some "") (by simp) (by simp)

/-- C4: `disconnect()` is idempotent and total on the no-connection state:
it never throws (the embedded function is total), a second call leaves the
state of the first call unchanged, and the resulting state has
`connecting == false`, a null adapter, and the session removed from the
owning server registry. -/
theorem disconnect_idempotent (s : SessionSt) :
    disconnectSession (disconnectSession s) = disconnectSession s ∧
    (disconnectSession s).db.connecting = false ∧
    (disconnectSession s).db.connection = none ∧
    lookupDatabase (disconnectSession s).server.databases (dbKey s.database) =
      none := by
  refine ⟨?_, ?_, ?_, ?_⟩
  · rw [disconnectSession_eq s, disconnectSession_eq]
    simp [removeDatabase_idem]
  · rw [disconnectSession_eq]
  · rw [disconnectSession_eq]
  · rw [disconnectSession_eq]
    exact lookupDatabase_removeDatabase s.server s.database

/-- C1: a `connect()` made while a previous `connect()` on the same session
is still in flight is rejected with the connection-in-progress precondition
error rather than queued, and once the first `connect()` resolves — with
success or failure — the `connecting` flag is false again, so a subsequent
`connect()` is accepted.  The in-flight boundaries of an uninterrupted
`connect()` are its start state and the state after a successful tunnel
await, and both carry `connecting == true`. -/
theorem connect_inflight_guard :
    (∀ s s' : SessionSt, connectStart s = .ok s' →
        s'.db.connecting = true ∧ ¬ s'.phase = .idle) ∧
    (∀ s : SessionSt, (connectResolveTunnel s true).db.connecting =
        s.db.connecting) ∧
    (∀ s : SessionSt, s.db.connecting = true →
        connectStart s = .error .connectionInProgress) ∧
    (∀ (s : SessionSt) (ok : Bool) (a : Nat),
        (connectResolveAdapter s ok a).db.connecting = false) ∧
    (∀ s : SessionSt, (connectResolveTunnel s false).db.connecting = false) ∧
    (∀ s : SessionSt, s.db.connecting = false →
        ∃ s', connectStart s = .ok s') := by
  refine ⟨?_, ?_, ?_, ?_, ?_, ?_⟩
  · intro s s' h
    unfold connectStart at h
    by_cases hc : s.db.connecting
    · simp [hc] at h
    · by_cases hs : s.sshConfigured && !s.sshTunnel <;>
        simp [hc, hs] at h <;> subst h <;> exact ⟨rfl, by simp⟩
  · intro s
    simp [connectResolveTunnel]
  · intro s h
    unfold connectStart
    simp [h]
  · intro s ok a
    cases ok
    · simp [connectResolveAdapter, connectFail_eq]
    · simp [connectResolveAdapter]
  · intro s
    simp [connectResolveTunnel, connectFail_eq]
  · intro s h
    unfold connectStart
    simp only [h, Bool.false_eq_true, if_false]
    by_cases hs : s.sshConfigured && !s.sshTunnel <;> simp [hs]

/-- C1 witness: the guard rejecting a second `connect()` on an in-flight
session, and accepting one on a resolved session, at concrete states. -/
theorem connect_inflight_guard_witness :
    connectStart
        { database := some "db1"
          db := { connecting := true, connection := none }
          phase := .awaitingAdapter
          server := { databases := [("db1", { id := 0, database := some "db1" })],
                      nextId := 1 }
          sshConfigured := false
          sshTunnel := false } = .error .connectionInProgress ∧
    ∃ s', connectStart (initSession (some "db1") false) = .ok s' :=
  ⟨connect_inflight_guard.2.2.1 _ rfl,
   connect_inflight_guard.2.2.2.2.2 (initSession (some "db1") false) rfl⟩

/-- C9: when `connect()` fails (tunnel await or adapter await rejecting),
the session ends with a null adapter, `connecting == false`, and its entry
removed from the server registry; a later `createConnection` under the same
name therefore allocates a fresh handle instead of returning the failed
one. -/
theorem connect_failure_cleanup :
    (∀ s : SessionSt,
        (connectFail s).db.connection = none ∧
        (connectFail s).db.connecting = false ∧
        (connectFail s).phase = .idle ∧
        lookupDatabase (connectFail s).server.databases (dbKey s.database) =
          none) ∧
    (∀ (s : SessionSt) (a : Nat), connectResolveAdapter s false a =
        connectFail s) ∧
    (∀ s : SessionSt, connectResolveTunnel s false = connectFail s) ∧
    (∀ (sv : ServerSt) (n : Option String),
        lookupDatabase sv.databases (dbKey n) = none →
        (createConnection sv n).2.id = sv.nextId) ∧
    (∀ (sv : ServerSt) (n : Option String) (h : DatabaseHandle),
        lookupDatabase sv.databases (dbKey n) = none →
        h.id < sv.nextId → ¬ (createConnection sv n).2 = h) := by
  refine ⟨?_, ?_, ?_, ?_, ?_⟩
  · intro s
    rw [connectFail_eq]
    exact ⟨rfl, rfl, rfl, lookupDatabase_removeDatabase s.server s.database⟩
  · intro s a
    simp [connectResolveAdapter]
  · intro s
    simp [connectResolveTunnel]
  · intro sv n h
    unfold createConnection
    simp [h]
  · intro sv n h hl hid heq
    have : (createConnection sv n).2.id = sv.nextId := by
      unfold createConnection
      simp [hl]
    rw [heq] at this
    omega

/-- C9 witness: a failed `connect()` on a connected concrete session leaves
the cleaned state, and re-creating the connection yields a fresh handle. -/
theorem connect_failure_cleanup_witness :
    (connectFail
        { database := some "db1"
          db := { connecting := true, connection := some 7 }
          phase := .awaitingAdapter
          server := { databases := [("db1", { id := 0, database := some "db1" })],
                      nextId := 1 }
          sshConfigured := false
          sshTunnel := false }).db.connection = none ∧
    ¬ (createConnection { databases := [], nextId := 1 } (some "db1")).2 =
        { id := 0, database := some "db1" } :=
  ⟨(connect_failure_cleanup.1 _).1,
   connect_failure_cleanup.2.2.2.2 { databases := [], nextId := 1 }
     (some "db1") { id := 0, database := some "db1" } rfl (by decide)⟩

/-- C2 counterexample: `truncateAllTables` carries no universal guard.  With
`connecting == true` and a stale adapter stored, the assertion
`adapter != null && !connecting` fails yet the call reaches the adapter;
and with a null adapter it fails with the JavaScript `TypeError`, not the
no-connection precondition error. -/
theorem truncateAllTables_unguarded_counterexample :
    Database.truncateAllTables { connecting := true, connection := some 0 }
        none = .ok (.truncateAllTables none) ∧
    ¬ Database.truncateAllTables { connecting := true, connection := some 0 }
        none = .error .noConnection ∧
    Database.truncateAllTables { connecting := false, connection := none }
        none = .error .nullAdapterTypeError ∧
    ¬ DbError.nullAdapterTypeError = DbError.noConnection := by
  refine ⟨rfl, ?_, rfl, by decide⟩
  intro h
  rw [show Database.truncateAllTables
        { connecting := true, connection := some 0 } none =
        .ok (.truncateAllTables none) from rfl] at h
  exact Except.noConfusion h

/-- C2 (amended): every read/write delegating operation of DatabaseSession
except `truncateAllTables` — `getVersion`, `listDatabases`, `listSchemas`,
`listTables`, `listViews`, `listRoutines`, `listTableColumns`,
`listTableTriggers`, `listTableIndexes`, `getTableReferences`,
`getTableKeys`, `query`, `executeQuery`, `getQuerySelectTop`, and the three
`get*CreateScript` helpers — first asserts `adapter != null` and
`connecting == false` and fails with the no-connection precondition error
whenever that assertion does not hold, before touching the adapter;
`truncateAllTables` performs no such guard. -/
theorem delegating_ops_guarded (s : DbConnSt)
    (h : s.connecting = true ∨ s.connection = none) :
    Database.getVersion s = .error .noConnection ∧
    (∀ f, Database.listDatabases s f = .error .noConnection) ∧
    (∀ f, Database.listSchemas s f = .error .noConnection) ∧
    (∀ f, Database.listTables s f = .error .noConnection) ∧
    (∀ f, Database.listViews s f = .error .noConnection) ∧
    (∀ f, Database.listRoutines s f = .error .noConnection) ∧
    (∀ t sch, Database.listTableColumns s t sch = .error .noConnection) ∧
    (∀ t sch, Database.listTableTriggers s t sch = .error .noConnection) ∧
    (∀ t sch, Database.listTableIndexes s t sch = .error .noConnection) ∧
    (∀ t sch, Database.getTableReferences s t sch = .error .noConnection) ∧
    (∀ t sch, Database.getTableKeys s t sch = .error .noConnection) ∧
    (∀ q, Database.query s q = .error .noConnection) ∧
    (∀ q, Database.executeQuery s q = .error .noConnection) ∧
    (∀ st t sch lim,
        Database.getQuerySelectTop s st t sch lim = .error .noConnection) ∧
    (∀ t sch, Database.getTableCreateScript s t sch = .error .noConnection) ∧
    (∀ v sch, Database.getViewCreateScript s v sch = .error .noConnection) ∧
    (∀ r ty sch,
        Database.getRoutineCreateScript s r ty sch = .error .noConnection) := by
  have hc := checkIsConnected_fails s h
  refine ⟨?_, fun f => ?_, fun f => ?_, fun f => ?_, fun f => ?_, fun f => ?_,
          fun t sch => ?_, fun t sch => ?_, fun t sch => ?_, fun t sch => ?_,
          fun t sch => ?_, fun q => ?_, fun q => ?_, fun st t sch lim => ?_,
          fun t sch => ?_, fun v sch => ?_, fun r ty sch => ?_⟩
  · unfold Database.getVersion; rw [hc]; rfl
  · unfold Database.listDatabases; rw [hc]; rfl
  · unfold Database.listSchemas; rw [hc]; rfl
  · unfold Database.listTables; rw [hc]; rfl
  · unfold Database.listViews; rw [hc]; rfl
  · unfold Database.listRoutines; rw [hc]; rfl
  · unfold Database.listTableColumns; rw [hc]; rfl
  · unfold Database.listTableTriggers; rw [hc]; rfl
  · unfold Database.listTableIndexes; rw [hc]; rfl
  · unfold Database.getTableReferences; rw [hc]; rfl
  · unfold Database.getTableKeys; rw [hc]; rfl
  · unfold Database.query; rw [hc]; rfl
  · unfold Database.executeQuery; rw [hc]; rfl
  · unfold Database.getQuerySelectTop; rw [hc]; rfl
  · unfold Database.getTableCreateScript; rw [hc]; rfl
  · unfold Database.getViewCreateScript; rw [hc]; rfl
  · unfold Database.getRoutineCreateScript; rw [hc]; rfl

/-- C2 witness: the guard firing on a concrete in-flight session state. -/
theorem delegating_ops_guarded_witness :
    Database.listTables { connecting := true, connection := some 3 } none =
      .error .noConnection ∧
    Database.executeQuery { connecting := false, connection := none }
        "SELECT 1" = .error .noConnection :=
  ⟨(delegating_ops_guarded { connecting := true, connection := some 3 }
      (Or.inl rfl)).2.2.2.1 none,
   (delegating_ops_guarded { connecting := false, connection := none }
      (Or.inr rfl)).2.2.2.2.2.2.2.2.2.2.2.2.1 "SELECT 1"⟩

/-- C3 counterexample: the invariant `adapter != null implies connecting ==
false` fails at an observable boundary.  After a successful `connect()`, a
second `connect()` leaves the stale adapter referenced while `connecting`
is already true, and suspends at the adapter await in exactly that
state — reachable from the freshly created session. -/
theorem session_invariant_counterexample :
    SessionReach (initSession (some "db1") false)
      { database := some "db1"
        db := { connecting := true, connection := some 7 }
        phase := .awaitingAdapter
        server := { databases := [("db1", { id := 0, database := some "db1" })],
                    nextId := 1 }
        sshConfigured := false
        sshTunnel := false } ∧
    ({ connecting := true, connection := some 7 } : DbConnSt).connection.isSome
      = true ∧
    ({ connecting := true, connection := some 7 } : DbConnSt).connecting
      = true := by
  refine ⟨?_, rfl, rfl⟩
  exact .step
    (.step
      (.step .refl
        (.connectOk (initSession (some "db1") false)
          { database := some "db1"
            db := { connecting := true, connection := none }
            phase := .awaitingAdapter
            server := { databases := [("db1", { id := 0, database := some "db1" })],
                        nextId := 1 }
            sshConfigured := false
            sshTunnel := false } rfl rfl))
      (.adapterResolve _ true 7 rfl))
    (.connectOk _ _ rfl rfl)

theorem sessionStep_idle_not_connecting {s t : SessionSt}
    (st : SessionStep s t) (hp : t.phase = .idle) :
    t.db.connecting = false := by
  cases st with
  | connectOk s' hph hcs =>
    exfalso
    unfold connectStart at hcs
    by_cases hc : s.db.connecting
    · simp [hc] at hcs
    · by_cases hs : s.sshConfigured && !s.sshTunnel <;>
        simp [hc, hs] at hcs <;> subst hcs <;> exact ConnectPhase.noConfusion hp
  | tunnelResolve ok hph =>
    cases ok
    · rw [show connectResolveTunnel s false = connectFail s from rfl,
         connectFail_eq]
    · exfalso
      rw [show connectResolveTunnel s true =
            { s with sshTunnel := true, phase := .awaitingAdapter } from rfl]
        at hp
      exact ConnectPhase.noConfusion hp
  | adapterResolve ok a hph =>
    cases ok
    · rw [show connectResolveAdapter s false a = connectFail s from rfl,
         connectFail_eq]
    · rfl
  | disconnectCall =>
    rw [disconnectSession_eq]

/-- C3 (amended): at every observable boundary where no `connect()` is in
flight (the phase is idle), `connecting` is false, so the invariant
`adapter != null implies connecting == false` holds there; during an
in-flight `connect()` that replaces an existing adapter, the stale adapter
stays referenced while `connecting` is true. -/
theorem session_invariant_amended (dbName : Option String) (ssh : Bool)
    (s : SessionSt) (h : SessionReach (initSession dbName ssh) s) :
    s.phase = .idle → s.db.connecting = false := by
  induction h with
  | refl => intro _; rfl
  | step hr st ih =>
    intro hp
    exact sessionStep_idle_not_connecting st hp

/-- C3 witness: the amended invariant applied to the concrete state reached
after one successful `connect()`. -/
theorem session_invariant_amended_witness :
    ({ database := some "db1"
       db := { connecting := false, connection := some 7 }
       phase := .idle
       server := { databases := [("db1", { id := 0, database := some "db1" })],
                   nextId := 1 }
       sshConfigured := false
       sshTunnel := false } : SessionSt).db.connecting = false :=
  session_invariant_amended (some "db1") false _
    (.step
      (.step .refl
        (.connectOk (initSession (some "db1") false)
          { database := some "db1"
            db := { connecting := true, connection := none }
            phase := .awaitingAdapter
            server := { databases := [("db1", { id := 0, database := some "db1" })],
                        nextId := 1 }
            sshConfigured := false
            sshTunnel := false } rfl rfl))
      (.adapterResolve _ true 7 rfl))
    rfl

/-- C6 counterexample: SQL Server's bracket `wrapIdentifier` performs no
escaping, so the name `a]b` does not decode back from its wrapped form; and
for MySQL, wrapping an already-wrapped name escapes the backticks again,
producing a quoted form that decodes to the once-wrapped string, not the
original name. -/
theorem wrapIdentifier_roundtrip_counterexample :
    unwrapDelimited '[' ']' (wrapIdentifierSqlServer ['a', ']', 'b']) = none ∧
    ¬ unwrapDelimited backtick backtick
        (wrapIdentifierMysql (wrapIdentifierMysql ['a'])) = some ['a'] ∧
    unwrapDelimited backtick backtick
        (wrapIdentifierMysql (wrapIdentifierMysql ['a'])) =
      some (wrapIdentifierMysql ['a']) ∧
    ¬ wrapIdentifierMysql ['a'] = ['a'] := by
  refine ⟨by decide, by decide, by decide, by decide⟩

/-- C6 (amended): a single `wrapIdentifier` round-trips through the engine's
decoding for MySQL (any name other than `*`), for PostgreSQL and SQLite
(any name other than `*` without an `[digit]` array-index occurrence), and
for SQL Server only for names free of `]` (the bracket form escapes
nothing); wrapping an already-wrapped name escapes the quotes again, so the
result denotes the once-wrapped string — a different name — rather than the
original. -/
theorem wrapIdentifier_roundtrip_amended :
    (∀ s : List Char, ¬ s = ['*'] →
        unwrapDelimited backtick backtick (wrapIdentifierMysql s) = some s) ∧
    (∀ s : List Char, ¬ s = ['*'] → matchIdx s = none →
        unwrapDelimited '"' '"' (wrapIdentifierPg s) = some s) ∧
    (∀ s : List Char, ¬ s = ['*'] → matchIdx s = none →
        unwrapDelimited '"' '"' (wrapIdentifierSqlite s) = some s) ∧
    (∀ s : List Char, ¬ s = ['*'] → ']' ∉ s →
        unwrapDelimited '[' ']' (wrapIdentifierSqlServer s) = some s) ∧
    (∀ s : List Char, ¬ s = ['*'] →
        unwrapDelimited backtick backtick
            (wrapIdentifierMysql (wrapIdentifierMysql s)) =
          some (wrapIdentifierMysql s) ∧
        ¬ wrapIdentifierMysql s = s) := by
  have hmy : ∀ s : List Char, ¬ s = ['*'] →
      unwrapDelimited backtick backtick (wrapIdentifierMysql s) = some s := by
    intro s h
    unfold wrapIdentifierMysql
    simp only [ne_eq, h, not_false_iff, if_true]
    exact unwrapDelimited_wrap backtick s
  refine ⟨hmy, ?_, ?_, ?_, ?_⟩
  · intro s h hidx
    rw [wrapIdentifierPg_plain s h hidx]
    exact unwrapDelimited_wrap '"' s
  · intro s h hidx
    unfold wrapIdentifierSqlite
    rw [wrapIdentifierPg_plain s h hidx]
    exact unwrapDelimited_wrap '"' s
  · intro s h hmem
    unfold wrapIdentifierSqlServer
    simp only [ne_eq, h, not_false_iff, if_true, mssqlEscapeBrackets_id]
    unfold unwrapDelimited
    simp [List.getLast?_concat, List.dropLast_concat,
          unescapeQuotes_not_mem ']' s hmem]
  · intro s h
    exact ⟨hmy (wrapIdentifierMysql s) (wrapIdentifierMysql_ne_star s h),
           wrapIdentifierMysql_ne_self s h⟩

/-- C6 witness: the amended round-trips evaluated at a concrete name
containing each engine's quote character. -/
theorem wrapIdentifier_roundtrip_amended_witness :
    unwrapDelimited backtick backtick
        (wrapIdentifierMysql [backtick, 'a']) = some [backtick, 'a'] ∧
    unwrapDelimited '"' '"' (wrapIdentifierPg ['a', '"', 'b']) =
      some ['a', '"', 'b'] ∧
    unwrapDelimited '[' ']' (wrapIdentifierSqlServer ['a', 'b']) =
      some ['a', 'b'] :=
  ⟨wrapIdentifier_roundtrip_amended.1 [backtick, 'a'] (by decide),
   wrapIdentifier_roundtrip_amended.2.1 ['a', '"', 'b'] (by decide) (by decide),
   wrapIdentifier_roundtrip_amended.2.2.2.1 ['a', 'b'] (by decide) (by decide)⟩

/-- C5: for every engine that implements cancellation — MySQL/MariaDB,
PostgreSQL, SQLite, SQL Server — if `execute()` has started and a
`cancel()` with a successful engine-native kill is issued before it
completes, the `execute()` promise rejects with an error carrying the
canonical `CANCELED_BY_USER` discriminator, whichever way the race settles
under the driver contract. -/
theorem cancel_rejects_canceled_by_user :
    (∀ (pid : Option Nat) (killOk canceling : Bool) (r : RaceResult),
        cancelStep pid killOk = (.canceled, canceling) →
        canceledRaceContract "PROTOCOL_CONNECTION_LOST" r →
        ∃ e, mysqlExecuteOutcome canceling r = .rejected e ∧
             e.sqlectronError = some "CANCELED_BY_USER") ∧
    (∀ (pid : Option Nat) (killOk canceling : Bool) (r : RaceResult),
        cancelStep pid killOk = (.canceled, canceling) →
        canceledRaceContract "57014" r →
        ∃ e, pgExecuteOutcome canceling r = .rejected e ∧
             e.sqlectronError = some "CANCELED_BY_USER") ∧
    (∀ r : QueryEnd, canceledQueryContract "SQLITE_INTERRUPT" r →
        ∃ e, sqliteExecuteOutcome r = .rejected e ∧
             e.sqlectronError = some "CANCELED_BY_USER") ∧
    (∀ r : QueryEnd, canceledQueryContract "ECANCEL" r →
        ∃ e, sqlserverExecuteOutcome r = .rejected e ∧
             e.sqlectronError = some "CANCELED_BY_USER") := by
  have hflag : ∀ (pid : Option Nat) (killOk canceling : Bool),
      cancelStep pid killOk = (.canceled, canceling) → canceling = true := by
    intro pid killOk canceling h
    cases pid with
    | none => exact absurd (Prod.mk.injEq .. ▸ h).1 (by decide)
    | some p =>
      cases killOk with
      | true => exact (Prod.mk.injEq .. ▸ h).2.symm
      | false => exact absurd (Prod.mk.injEq .. ▸ h).1 (by decide)
  refine ⟨?_, ?_, ?_, ?_⟩
  · intro pid killOk canceling r hcancel hr
    have hc := hflag pid killOk canceling hcancel
    subst hc
    cases r with
    | completed => exact absurd hr (by simp [canceledRaceContract])
    | waitCanceled => exact ⟨canceledByUserError, rfl, rfl⟩
    | driverError e =>
      refine ⟨{ e with sqlectronError := some "CANCELED_BY_USER" }, ?_, rfl⟩
      simp [mysqlExecuteOutcome, canceledRaceContract] at hr ⊢
      simp [hr]
  · intro pid killOk canceling r hcancel hr
    have hc := hflag pid killOk canceling hcancel
    subst hc
    cases r with
    | completed => exact absurd hr (by simp [canceledRaceContract])
    | waitCanceled => exact ⟨canceledByUserError, rfl, rfl⟩
    | driverError e =>
      refine ⟨{ e with sqlectronError := some "CANCELED_BY_USER" }, ?_, rfl⟩
      simp [pgExecuteOutcome, canceledRaceContract] at hr ⊢
      simp [hr]
  · intro r hr
    cases r with
    | completed => exact absurd hr (by simp [canceledQueryContract])
    | driverError e =>
      refine ⟨{ e with sqlectronError := some "CANCELED_BY_USER" }, ?_, rfl⟩
      simp [canceledQueryContract] at hr
      simp [sqliteExecuteOutcome, hr]
  · intro r hr
    cases r with
    | completed => exact absurd hr (by simp [canceledQueryContract])
    | driverError e =>
      refine ⟨{ e with sqlectronError := some "CANCELED_BY_USER" }, ?_, rfl⟩
      simp [canceledQueryContract] at hr
      simp [sqlserverExecuteOutcome, hr]

/-- C5 witness: a concrete canceled run for each engine. -/
theorem cancel_rejects_canceled_by_user_witness :
    (∃ e, mysqlExecuteOutcome true
        (.driverError { code := "PROTOCOL_CONNECTION_LOST",
                        sqlectronError := none }) = .rejected e ∧
      e.sqlectronError = some "CANCELED_BY_USER") ∧
    (∃ e, sqliteExecuteOutcome
        (.driverError { code := "SQLITE_INTERRUPT", sqlectronError := none }) =
        .rejected e ∧
      e.sqlectronError = some "CANCELED_BY_USER") :=
  ⟨cancel_rejects_canceled_by_user.1 (some 1) true true
      (.driverError { code := "PROTOCOL_CONNECTION_LOST",
                      sqlectronError := none }) rfl rfl,
   cancel_rejects_canceled_by_user.2.2.1
      (.driverError { code := "SQLITE_INTERRUPT", sqlectronError := none })
      rfl⟩

end SqlectronDbCore
